import Mathlib

/-!
Verification development for the runtime coordinator header
(`runtime/runtime.h`): a shallow embedding of the lifecycle surface, the
method registry and the root-visitation dispatcher, with theorems checking
the specification's claims against it.

Method pointers (`mirror::AbstractMethod*`) are modelled as `Nat`, with `0`
standing for `NULL`.  `size_t` values are `Nat` reduced mod `2 ^ 64` where
the code can overflow them.
-/

namespace ArtRuntime

/-- Width modulus of a 64-bit `size_t`. -/
def sizeTMod : Nat := 2 ^ 64

/-- Enum `Runtime::CalleeSaveType` (runtime.h lines 307-312), with
`kLastCalleeSaveType` the iteration sentinel. -/
inductive CalleeSaveType where
  | kSaveAll
  | kRefsOnly
  | kRefsAndArgs
  | kLastCalleeSaveType
  deriving DecidableEq

/-- The numeric value C++ assigns to each enumerator of `CalleeSaveType`. -/
def CalleeSaveType.toIndex : CalleeSaveType → Nat
  | .kSaveAll => 0
  | .kRefsOnly => 1
  | .kRefsAndArgs => 2
  | .kLastCalleeSaveType => 3

/-- Length of the array `callee_save_methods_[kLastCalleeSaveType]`
(runtime.h line 429). -/
def numCalleeSaveSlots : Nat := CalleeSaveType.toIndex .kLastCalleeSaveType

/-- A fatal precondition violation: `CheckKind.check` for an always-on
`CHECK`, `CheckKind.dcheck` for a debug-build `DCHECK`. -/
inductive CheckKind where
  | check
  | dcheck
  deriving DecidableEq

/-- The fields of `class Runtime` (runtime.h lines 380-459) that the claims
touch.  Pointers are `Nat` with `0` for `NULL`; `threads_being_born_` is the
`size_t` counter of line 438. -/
structure Runtime where
  host_prefix_ : String
  callee_save_methods_ : Fin numCalleeSaveSlots → Nat
  resolution_method_ : Nat
  threads_being_born_ : Nat
  shutting_down_ : Bool
  shutting_down_started_ : Bool
  started_ : Bool
  finished_starting_ : Bool

/-- `Runtime::IsShuttingDown` (runtime.h lines 173-175): returns
`shutting_down_`. -/
def Runtime.IsShuttingDown (r : Runtime) : Bool :=
  r.shutting_down_

/-- `Runtime::NumberOfThreadsBeingBorn` (runtime.h lines 177-179): returns
`threads_being_born_`. -/
def Runtime.NumberOfThreadsBeingBorn (r : Runtime) : Nat :=
  r.threads_being_born_

/-- `Runtime::StartThreadBirth` (runtime.h lines 181-183): the body is
exactly `threads_being_born_++;` — an unconditional `size_t` increment, with
no check of the shutdown flag. -/
def Runtime.StartThreadBirth (r : Runtime) : Runtime :=
  { r with threads_being_born_ := (r.threads_being_born_ + 1) % sizeTMod }

/-- `Runtime::IsStarted` (runtime.h lines 187-189): returns `started_`. -/
def Runtime.IsStarted (r : Runtime) : Bool :=
  r.started_

/-- `Runtime::GetHostPrefix` (runtime.h lines 165-168): `DCHECK(!IsStarted())`
then return `host_prefix_`.  The debug check is modelled as the error
branch. -/
def Runtime.GetHostPrefix (r : Runtime) : Except CheckKind String :=
  if r.IsStarted then .error .dcheck else .ok r.host_prefix_

/-- `Runtime::HasResolutionMethod` (runtime.h lines 296-298):
`resolution_method_ != NULL`. -/
def Runtime.HasResolutionMethod (r : Runtime) : Bool :=
  r.resolution_method_ != 0

/-- `Runtime::GetResolutionMethod` (runtime.h lines 291-294):
`CHECK(HasResolutionMethod()); return resolution_method_;`.  The fatal
`CHECK` is modelled as the error branch. -/
def Runtime.GetResolutionMethod (r : Runtime) : Except CheckKind Nat :=
  if r.HasResolutionMethod then .ok r.resolution_method_ else .error .check

/-- `Runtime::SetResolutionMethod` (runtime.h lines 300-302): stores the
argument in `resolution_method_`. -/
def Runtime.SetResolutionMethod (r : Runtime) (method : Nat) : Runtime :=
  { r with resolution_method_ := method }

/-- The array read `callee_save_methods_[type]` (runtime.h lines 315, 320):
`some` of the slot when the enumerator's value is in bounds, `none` for the
out-of-bounds read that `kLastCalleeSaveType` would perform. -/
def Runtime.calleeSaveSlot (r : Runtime) (type : CalleeSaveType) : Option Nat :=
  if h : type.toIndex < numCalleeSaveSlots then
    some (r.callee_save_methods_ ⟨type.toIndex, h⟩)
  else
    none

/-- `Runtime::HasCalleeSaveMethod` (runtime.h lines 314-316):
`callee_save_methods_[type] != NULL`. -/
def Runtime.HasCalleeSaveMethod (r : Runtime) (type : CalleeSaveType) : Bool :=
  (r.calleeSaveSlot type).getD 0 != 0

/-- `Runtime::GetCalleeSaveMethod` (runtime.h lines 318-321):
`DCHECK(HasCalleeSaveMethod(type)); return callee_save_methods_[type];`. -/
def Runtime.GetCalleeSaveMethod (r : Runtime) (type : CalleeSaveType) :
    Except CheckKind Nat :=
  if r.HasCalleeSaveMethod type then .ok ((r.calleeSaveSlot type).getD 0)
  else .error .dcheck

/-- A call to the `const` query `HasCalleeSaveMethod` as a state
transformer: it returns its result and leaves the receiver unchanged. -/
def Runtime.HasCalleeSaveMethodCall (r : Runtime) (type : CalleeSaveType) :
    Bool × Runtime :=
  (r.HasCalleeSaveMethod type, r)

/-- A call to the `const` query `GetCalleeSaveMethod` as a state
transformer: it returns its result and leaves the receiver unchanged. -/
def Runtime.GetCalleeSaveMethodCall (r : Runtime) (type : CalleeSaveType) :
    Except CheckKind Nat × Runtime :=
  (r.GetCalleeSaveMethod type, r)

/-- Modelled from the spec: the body of `Runtime::EndThreadBirth` is in
runtime.cc, which is not among the sources; only its declaration (runtime.h
line 185) is.  Spec section 4.1: it "decrements the counter under the
shutdown lock".  The `size_t` decrement wraps mod `2 ^ 64`. -/
def Runtime.EndThreadBirth (r : Runtime) : Runtime :=
  { r with threads_being_born_ := (r.threads_being_born_ + (sizeTMod - 1)) % sizeTMod }

/-- Modelled from the spec: the bodies of `Runtime::VisitRoots`,
`VisitConcurrentRoots`, `VisitNonThreadRoots` and `VisitNonConcurrentRoots`
are in runtime.cc, which is not among the sources; only their declarations
(runtime.h lines 277-288) are.  Spec section 4.2 lists the root categories a
full pass dispatches to, in this fixed order. -/
inductive RootCategory where
  | methodRegistry
  | preAllocatedOOME
  | internTable
  | classLinker
  | monitorList
  | compileTimeClassPathMap
  | threadRegistry
  deriving DecidableEq

/-- Modelled from the spec: the categories that are safe to visit while
guest threads run unpaused and that track per-root dirty bits — these are
the ones the header hands the `only_dirty`/`clean_dirty` flags to
(runtime.h line 281, spec section 4.2). -/
def RootCategory.concurrentSafe : RootCategory → Bool
  | .internTable => true
  | .classLinker => true
  | _ => false

/-- Modelled from the spec: the one category holding thread-stack roots,
whose visit requires the mutators to be suspended (spec section 4.2). -/
def RootCategory.isThreadRoot : RootCategory → Bool
  | .threadRegistry => true
  | _ => false

/-- Modelled from the spec: the fixed dispatch order of a full
`VisitRoots` pass (spec section 4.2): method registry, pre-allocated
out-of-memory error, intern table, class linker, monitor list,
compile-time class-path map, thread registry. -/
def visitOrder : List RootCategory :=
  [.methodRegistry, .preAllocatedOOME, .internTable, .classLinker,
   .monitorList, .compileTimeClassPathMap, .threadRegistry]

/-- The trace of references handed to the visitor when the dispatcher walks
`cats`: each category enumerates its own roots (the function `roots`, whose
`Bool` argument is the `only_dirty` filter as the category sees it —
categories that do not track dirty bits always see `false`). -/
def visitList (roots : RootCategory → Bool → List Nat) (only_dirty : Bool)
    (cats : List RootCategory) : List Nat :=
  cats.flatMap fun c => roots c (only_dirty && c.concurrentSafe)

/-- Modelled from the spec: `Runtime::VisitRoots` — one full pass over every
category in the fixed order (spec section 4.2).  `clean_dirty` only clears
dirty bits after a successful visit and does not change the visited set, so
it is not consumed by this trace model. -/
def VisitRoots (roots : RootCategory → Bool → List Nat)
    (only_dirty clean_dirty : Bool) : List Nat :=
  visitList roots only_dirty visitOrder

/-- Modelled from the spec: `Runtime::VisitConcurrentRoots` — the subset of
the full pass that is safe with mutators unpaused (spec section 4.2). -/
def VisitConcurrentRoots (roots : RootCategory → Bool → List Nat)
    (only_dirty clean_dirty : Bool) : List Nat :=
  visitList roots only_dirty (visitOrder.filter fun c => c.concurrentSafe)

/-- Modelled from the spec: `Runtime::VisitNonThreadRoots` — the
non-concurrent categories other than thread stacks (spec section 4.2). -/
def VisitNonThreadRoots (roots : RootCategory → Bool → List Nat) : List Nat :=
  visitList roots false
    (visitOrder.filter fun c => !c.concurrentSafe && !c.isThreadRoot)

/-- Modelled from the spec: `Runtime::VisitNonConcurrentRoots` — the
remainder of the full pass, the categories that need a full pause (spec
section 4.2). -/
def VisitNonConcurrentRoots (roots : RootCategory → Bool → List Nat) : List Nat :=
  visitList roots false
    (visitOrder.filter fun c => !c.concurrentSafe && c.isThreadRoot)

/-- Modelled from the spec: the registry state behind
`Runtime::CreateCalleeSaveMethod`, whose body is in runtime.cc, not among
the sources (declaration: runtime.h lines 325-327).  Spec sections 4.3 and 9:
descriptors are cached per `(type, instruction set)` pair in a
populate-once slot, synthesized lazily on first use.  Instruction sets are
opaque values, modelled as `Nat`; `nextDesc` allocates fresh descriptor
identities. -/
structure MethodRegistry where
  calleeSaveCache : CalleeSaveType × Nat → Option Nat
  nextDesc : Nat

/-- Every cached descriptor was allocated below `nextDesc`, and no two keys
cache the same descriptor: the invariant the populate-once discipline
maintains. -/
def MethodRegistry.WF (reg : MethodRegistry) : Prop :=
  (∀ k d, reg.calleeSaveCache k = some d → d < reg.nextDesc) ∧
  (∀ k1 k2 d, reg.calleeSaveCache k1 = some d →
    reg.calleeSaveCache k2 = some d → k1 = k2)

/-- Modelled from the spec: `Runtime::CreateCalleeSaveMethod(instruction_set,
type)` — returns the cached descriptor for the pair when present, otherwise
synthesizes a fresh one and stores it (spec sections 4.3 and 9). -/
def CreateCalleeSaveMethod (reg : MethodRegistry) (instruction_set : Nat)
    (type : CalleeSaveType) : Nat × MethodRegistry :=
  match reg.calleeSaveCache (type, instruction_set) with
  | some d => (d, reg)
  | none =>
      (reg.nextDesc,
       { calleeSaveCache := fun k =>
           if k = (type, instruction_set) then some reg.nextDesc
           else reg.calleeSaveCache k,
         nextDesc := reg.nextDesc + 1 })

/-- The registry before any descriptor has been synthesized.  Descriptor
identities start at 1 so that none is the `NULL` value 0. -/
def emptyMethodRegistry : MethodRegistry where
  calleeSaveCache := fun _ => none
  nextDesc := 1

/-- `Runtime::ParsedOptions` (runtime.h lines 76-120): only its existence
matters to the claims, so the configuration fields are elided. -/
structure ParsedOptions where

/-- Modelled from the spec: `Runtime::ParsedOptions::Create` — its body is
in runtime.cc, not among the sources; the header documents it (runtime.h
line 78): "returns null if problem parsing and ignore_unrecognized is
false".  `parseProblem` abstracts "there was a problem parsing the
options". -/
def ParsedOptions.Create (parseProblem : Bool) (ignore_unrecognized : Bool) :
    Option ParsedOptions :=
  if parseProblem && !ignore_unrecognized then none else some ⟨⟩

/-- A fresh runtime instance with all pointers `NULL`, the counter at zero
and all flags clear. -/
def rt0 : Runtime where
  host_prefix_ := ""
  callee_save_methods_ := fun _ => 0
  resolution_method_ := 0
  threads_being_born_ := 0
  shutting_down_ := false
  shutting_down_started_ := false
  started_ := false
  finished_starting_ := false

/-- Modelled from the spec: `Runtime::Create` — its body is in runtime.cc,
not among the sources (declaration: runtime.h lines 122-124).  Spec section
4.1: it constructs the singleton and calls `Init`; it fails and produces no
instance if option parsing fails and `ignore_unrecognized` is false, or if
any owned subsystem fails to construct.  `parseProblem` and
`subsystemFailure` abstract those two failure conditions. -/
def Runtime.Create (parseProblem ignore_unrecognized subsystemFailure : Bool) :
    Option Runtime :=
  match ParsedOptions.Create parseProblem ignore_unrecognized with
  | none => none
  | some _ => if subsystemFailure then none else some rt0

/-- The events of the thread-birth protocol: one `StartThreadBirth` or one
`EndThreadBirth` call, performed under the shutdown lock. -/
inductive BirthEvent where
  | startBirth
  | endBirth
  deriving DecidableEq

/-- Run a sequence of thread-birth events against a runtime state. -/
def runBirths (r : Runtime) (es : List BirthEvent) : Runtime :=
  es.foldl
    (fun s e =>
      match e with
      | .startBirth => s.StartThreadBirth
      | .endBirth => s.EndThreadBirth)
    r

/-- How many `StartThreadBirth` calls a sequence holds. -/
def countStart (es : List BirthEvent) : Nat :=
  es.countP (· == BirthEvent.startBirth)

/-- How many `EndThreadBirth` calls a sequence holds. -/
def countEnd (es : List BirthEvent) : Nat :=
  es.countP (· == BirthEvent.endBirth)

/-- A properly paired call sequence: no prefix ends more births than it
started, and every birth that starts also ends. -/
def properlyPaired (es : List BirthEvent) : Prop :=
  (∀ n ≤ es.length, countEnd (es.take n) ≤ countStart (es.take n)) ∧
  countStart es = countEnd es

/-- A runtime whose shutdown flag is set and whose counter is zero. -/
def rtShutdown : Runtime :=
  { rt0 with shutting_down_ := true }

/-- A runtime with every callee-save slot populated by descriptor 7. -/
def rtCS : Runtime :=
  { rt0 with callee_save_methods_ := fun _ => 7 }

/-- A runtime that has been started. -/
def rtStarted : Runtime :=
  { rt0 with started_ := true }

/-- A runtime whose resolution descriptor 5 has been installed. -/
def rtRes : Runtime :=
  { rt0 with resolution_method_ := 5 }

end ArtRuntime

namespace ArtRuntime

/-- Every cached descriptor was created through the populate-once discipline:
looking up a cached key returns it unchanged. -/
theorem create_cached {reg : MethodRegistry} {t : CalleeSaveType} {i d : Nat}
    (h : reg.calleeSaveCache (t, i) = some d) :
    CreateCalleeSaveMethod reg i t = (d, reg) := by
  simp [CreateCalleeSaveMethod, h]

/-- Creating for an uncached key allocates the next descriptor and stores it. -/
theorem create_fresh {reg : MethodRegistry} {t : CalleeSaveType} {i : Nat}
    (h : reg.calleeSaveCache (t, i) = none) :
    CreateCalleeSaveMethod reg i t
      = (reg.nextDesc,
         { calleeSaveCache := fun k =>
             if k = (t, i) then some reg.nextDesc else reg.calleeSaveCache k,
           nextDesc := reg.nextDesc + 1 }) := by
  simp [CreateCalleeSaveMethod, h]

theorem counter_after_events (r0 : Runtime) (h0 : r0.threads_being_born_ = 0)
    (es : List BirthEvent)
    (hbal : ∀ n ≤ es.length, countEnd (es.take n) ≤ countStart (es.take n))
    (hlt : countStart es < sizeTMod) :
    (runBirths r0 es).threads_being_born_ = countStart es - countEnd es := by
  induction es using List.reverseRecOn with
  | nil => simp [runBirths, countStart, countEnd, h0]
  | append_singleton es e ih =>
      have hMeq : sizeTMod = 18446744073709551616 := by norm_num [sizeTMod]
      have hcs : countStart (es ++ [e]) = countStart es + countStart [e] := by
        simp [countStart, List.countP_append]
      have hce : countEnd (es ++ [e]) = countEnd es + countEnd [e] := by
        simp [countEnd, List.countP_append]
      have hbal' : ∀ n ≤ es.length, countEnd (es.take n) ≤ countStart (es.take n) := by
        intro n hn
        have h := hbal n (by simp; omega)
        rwa [List.take_append_of_le_length hn] at h
      have hE : countEnd es ≤ countStart es := by
        have h := hbal' es.length le_rfl
        rwa [List.take_length] at h
      have hfull : countEnd (es ++ [e]) ≤ countStart (es ++ [e]) := by
        have h := hbal (es ++ [e]).length le_rfl
        rwa [List.take_length] at h
      have hlt' : countStart es < sizeTMod := by omega
      have ihv := ih hbal' hlt'
      cases e with
      | startBirth =>
          have hstep : runBirths r0 (es ++ [BirthEvent.startBirth])
              = (runBirths r0 es).StartThreadBirth := by
            simp [runBirths, List.foldl_append]
          have h1 : countStart [BirthEvent.startBirth] = 1 := by decide
          have h2 : countEnd [BirthEvent.startBirth] = 0 := by decide
          rw [hstep, hcs, hce, h1, h2]
          rw [hcs, h1] at hlt
          simp only [Runtime.StartThreadBirth]
          rw [ihv, hMeq]
          rw [hMeq] at hlt'
          omega
      | endBirth =>
          have hstep : runBirths r0 (es ++ [BirthEvent.endBirth])
              = (runBirths r0 es).EndThreadBirth := by
            simp [runBirths, List.foldl_append]
          have h1 : countStart [BirthEvent.endBirth] = 0 := by decide
          have h2 : countEnd [BirthEvent.endBirth] = 1 := by decide
          rw [hstep, hcs, hce, h1, h2]
          rw [hcs, hce, h1, h2] at hfull
          simp only [Runtime.EndThreadBirth]
          rw [ihv, hMeq]
          rw [hMeq] at hlt'
          omega

/-- C1 (amended): `StartThreadBirth` increments the thread-birth counter by
exactly one whether or not the shutdown flag is set — the body performs no
shutdown check, so it never fails; the flag is left untouched.  (The
hypothesis rules out the `size_t` wrap at `2 ^ 64 - 1`.) -/
theorem startThreadBirth_always_increments (r : Runtime)
    (h : r.threads_being_born_ + 1 < sizeTMod) :
    r.StartThreadBirth.NumberOfThreadsBeingBorn = r.NumberOfThreadsBeingBorn + 1 ∧
    r.StartThreadBirth.IsShuttingDown = r.IsShuttingDown := by
  constructor
  · simp only [Runtime.StartThreadBirth, Runtime.NumberOfThreadsBeingBorn]
    exact Nat.mod_eq_of_lt h
  · rfl

theorem startThreadBirth_always_increments_witness :
    rt0.StartThreadBirth.NumberOfThreadsBeingBorn = rt0.NumberOfThreadsBeingBorn + 1 ∧
    rt0.StartThreadBirth.IsShuttingDown = rt0.IsShuttingDown :=
  startThreadBirth_always_increments rt0 (by decide)

/-- C1 counterexample: with the shutdown flag already set, a call to
`StartThreadBirth` does not fail and does not leave the counter unchanged —
it still increments it by one. -/
theorem startThreadBirth_shutdown_counterexample :
    rtShutdown.IsShuttingDown = true ∧
    rtShutdown.StartThreadBirth.NumberOfThreadsBeingBorn
      = rtShutdown.NumberOfThreadsBeingBorn + 1 ∧
    rtShutdown.StartThreadBirth.NumberOfThreadsBeingBorn
      ≠ rtShutdown.NumberOfThreadsBeingBorn := by
  refine ⟨rfl, ?_, ?_⟩ <;> decide

/-- C2: one call each to `VisitConcurrentRoots`, `VisitNonThreadRoots` and
`VisitNonConcurrentRoots` together visit exactly the multiset of roots a
single full `VisitRoots` pass visits — nothing missed, nothing twice. -/
theorem visitRoots_partition (roots : RootCategory → Bool → List Nat)
    (only_dirty clean_dirty : Bool) :
    List.Perm
      (VisitConcurrentRoots roots only_dirty clean_dirty
        ++ VisitNonThreadRoots roots ++ VisitNonConcurrentRoots roots)
      (VisitRoots roots only_dirty clean_dirty) := by
  have hnt : VisitNonThreadRoots roots
      = visitList roots only_dirty
          (visitOrder.filter fun c => !c.concurrentSafe && !c.isThreadRoot) := by
    simp [VisitNonThreadRoots, visitList, visitOrder, RootCategory.concurrentSafe,
      RootCategory.isThreadRoot, List.filter]
  have hnc : VisitNonConcurrentRoots roots
      = visitList roots only_dirty
          (visitOrder.filter fun c => !c.concurrentSafe && c.isThreadRoot) := by
    simp [VisitNonConcurrentRoots, visitList, visitOrder, RootCategory.concurrentSafe,
      RootCategory.isThreadRoot, List.filter]
  rw [hnt, hnc, VisitConcurrentRoots, VisitRoots]
  unfold visitList
  rw [← List.flatMap_append, ← List.flatMap_append]
  exact List.Perm.flatMap_right _ (by decide)

/-- C3: `GetResolutionMethod` fails with the fatal `CHECK` precondition
violation while `HasResolutionMethod` is false; once the descriptor is
installed it returns it and the failure branch is unreachable. -/
theorem getResolutionMethod_check (r : Runtime) :
    (r.HasResolutionMethod = false → r.GetResolutionMethod = .error .check) ∧
    (r.HasResolutionMethod = true →
      r.GetResolutionMethod = .ok r.resolution_method_) := by
  constructor <;> intro h <;> simp [Runtime.GetResolutionMethod, h]

theorem getResolutionMethod_check_witness :
    rtRes.GetResolutionMethod = Except.ok 5 ∧
    rt0.GetResolutionMethod = Except.error CheckKind.check :=
  ⟨(getResolutionMethod_check rtRes).2 rfl, (getResolutionMethod_check rt0).1 rfl⟩

/-- C4: `HasCalleeSaveMethod` and `GetCalleeSaveMethod` are pure queries —
calling either returns its result and leaves the state unchanged; for an
uncreated (null) slot `GetCalleeSaveMethod` fails with the debug-checked
`DCHECK` violation, and under the precondition `HasCalleeSaveMethod` it
returns the slot's non-null descriptor.  (`hv` keeps the query to the
in-bounds enumerators; `kLastCalleeSaveType` is settled by C10.) -/
theorem calleeSave_queries (r : Runtime) (t : CalleeSaveType)
    (hv : t.toIndex < numCalleeSaveSlots) :
    (r.HasCalleeSaveMethodCall t).2 = r ∧
    (r.GetCalleeSaveMethodCall t).2 = r ∧
    (r.HasCalleeSaveMethod t = false →
      r.GetCalleeSaveMethod t = .error .dcheck) ∧
    (r.HasCalleeSaveMethod t = true →
      ∃ m, r.GetCalleeSaveMethod t = .ok m ∧ m ≠ 0) := by
  refine ⟨rfl, rfl, ?_, ?_⟩
  · intro h
    simp [Runtime.GetCalleeSaveMethod, h]
  · intro h
    refine ⟨(r.calleeSaveSlot t).getD 0, ?_, ?_⟩
    · simp [Runtime.GetCalleeSaveMethod, h]
    · simpa [Runtime.HasCalleeSaveMethod] using h

theorem calleeSave_queries_witness :
    (∃ m, rtCS.GetCalleeSaveMethod CalleeSaveType.kSaveAll = Except.ok m ∧ m ≠ 0) ∧
    rt0.GetCalleeSaveMethod CalleeSaveType.kSaveAll = Except.error CheckKind.dcheck :=
  ⟨(calleeSave_queries rtCS CalleeSaveType.kSaveAll (by decide)).2.2.2 rfl,
   (calleeSave_queries rt0 CalleeSaveType.kSaveAll (by decide)).2.2.1 rfl⟩

/-- C5: over any properly paired `StartThreadBirth`/`EndThreadBirth`
sequence started at counter zero, `NumberOfThreadsBeingBorn` equals the
number of still-open births at every intermediate point (so the `size_t`
counter never underflows below zero) and is exactly zero once all pairs
have completed. -/
theorem thread_birth_pairing (r0 : Runtime) (es : List BirthEvent)
    (h0 : r0.threads_being_born_ = 0) (hp : properlyPaired es)
    (hlen : es.length < sizeTMod) :
    (∀ n ≤ es.length,
      (runBirths r0 (es.take n)).NumberOfThreadsBeingBorn
          = countStart (es.take n) - countEnd (es.take n) ∧
        countEnd (es.take n) ≤ countStart (es.take n)) ∧
    (runBirths r0 es).NumberOfThreadsBeingBorn = 0 := by
  obtain ⟨hbal, heq⟩ := hp
  have key : ∀ n ≤ es.length,
      (runBirths r0 (es.take n)).threads_being_born_
        = countStart (es.take n) - countEnd (es.take n) := by
    intro n hn
    apply counter_after_events r0 h0
    · intro m hm
      rw [List.take_take]
      exact hbal (m ⊓ n) (le_trans (le_trans inf_le_right hn) le_rfl)
    · calc countStart (es.take n) ≤ (es.take n).length := List.countP_le_length _
      _ ≤ es.length := by simp [List.length_take]
      _ < sizeTMod := hlen
  constructor
  · intro n hn
    exact ⟨key n hn, hbal n hn⟩
  · have h := key es.length le_rfl
    rw [List.take_length] at h
    simp only [Runtime.NumberOfThreadsBeingBorn, h, heq, Nat.sub_self]

theorem thread_birth_pairing_witness :
    (runBirths rt0
      [BirthEvent.startBirth, BirthEvent.startBirth,
       BirthEvent.endBirth, BirthEvent.endBirth]).NumberOfThreadsBeingBorn = 0 :=
  (thread_birth_pairing rt0
    [BirthEvent.startBirth, BirthEvent.startBirth,
     BirthEvent.endBirth, BirthEvent.endBirth]
    rfl ⟨by decide, by decide⟩ (by decide)).2

/-- C6: `CreateCalleeSaveMethod` is idempotent per `(type, instruction set)`
pair — a second call with the same pair returns the same descriptor and
leaves the registry unchanged — and calls with different instruction sets
return distinct descriptors. -/
theorem createCalleeSaveMethod_cached (reg : MethodRegistry)
    (t : CalleeSaveType) (i j : Nat) (hwf : reg.WF) (hij : i ≠ j) :
    ((CreateCalleeSaveMethod (CreateCalleeSaveMethod reg i t).2 i t).1
        = (CreateCalleeSaveMethod reg i t).1 ∧
      (CreateCalleeSaveMethod (CreateCalleeSaveMethod reg i t).2 i t).2
        = (CreateCalleeSaveMethod reg i t).2) ∧
    (CreateCalleeSaveMethod (CreateCalleeSaveMethod reg i t).2 j t).1
      ≠ (CreateCalleeSaveMethod reg i t).1 := by
  obtain ⟨hlt, hinj⟩ := hwf
  have hne : (t, j) ≠ (t, i) := by
    intro h
    injection h with h1 h2
    exact hij h2.symm
  cases hci : reg.calleeSaveCache (t, i) with
  | some d =>
      rw [create_cached hci]
      refine ⟨⟨by rw [create_cached hci], by rw [create_cached hci]⟩, ?_⟩
      cases hcj : reg.calleeSaveCache (t, j) with
      | some e =>
          rw [create_cached hcj]
          show e ≠ d
          intro heq
          exact hne (hinj (t, j) (t, i) d (heq ▸ hcj) hci)
      | none =>
          rw [create_fresh hcj]
          show reg.nextDesc ≠ d
          have := hlt (t, i) d hci
          omega
  | none =>
      rw [create_fresh hci]
      have hcache1 :
          ({ calleeSaveCache := fun k =>
               if k = (t, i) then some reg.nextDesc else reg.calleeSaveCache k,
             nextDesc := reg.nextDesc + 1 } : MethodRegistry).calleeSaveCache (t, i)
            = some reg.nextDesc := by simp
      constructor
      · constructor <;> rw [create_cached hcache1]
      · have hcache2 :
            ({ calleeSaveCache := fun k =>
                 if k = (t, i) then some reg.nextDesc else reg.calleeSaveCache k,
               nextDesc := reg.nextDesc + 1 } : MethodRegistry).calleeSaveCache (t, j)
              = reg.calleeSaveCache (t, j) := by
          simp [hne]
        cases hcj : reg.calleeSaveCache (t, j) with
        | some e =>
            rw [create_cached (hcache2.trans hcj)]
            show e ≠ reg.nextDesc
            have := hlt (t, j) e hcj
            omega
        | none =>
            rw [create_fresh (hcache2.trans hcj)]
            show reg.nextDesc + 1 ≠ reg.nextDesc
            omega

theorem createCalleeSaveMethod_cached_witness :
    ((CreateCalleeSaveMethod
        (CreateCalleeSaveMethod emptyMethodRegistry 0 CalleeSaveType.kSaveAll).2
        0 CalleeSaveType.kSaveAll).1
      = (CreateCalleeSaveMethod emptyMethodRegistry 0 CalleeSaveType.kSaveAll).1 ∧
     (CreateCalleeSaveMethod
        (CreateCalleeSaveMethod emptyMethodRegistry 0 CalleeSaveType.kSaveAll).2
        0 CalleeSaveType.kSaveAll).2
      = (CreateCalleeSaveMethod emptyMethodRegistry 0 CalleeSaveType.kSaveAll).2) ∧
    (CreateCalleeSaveMethod
        (CreateCalleeSaveMethod emptyMethodRegistry 0 CalleeSaveType.kSaveAll).2
        1 CalleeSaveType.kSaveAll).1
      ≠ (CreateCalleeSaveMethod emptyMethodRegistry 0 CalleeSaveType.kSaveAll).1 :=
  createCalleeSaveMethod_cached emptyMethodRegistry CalleeSaveType.kSaveAll 0 1
    ⟨fun _ _ h => Option.noConfusion h, fun _ _ _ h1 _ => Option.noConfusion h1⟩
    (by decide)

/-- C7: `Runtime::Create` produces no instance when option parsing fails
with `ignore_unrecognized` false, or when an owned subsystem fails to
construct; and in the parsing-failure case the option parser itself
returns null. -/
theorem runtimeCreate_failure (p i s : Bool)
    (h : (p = true ∧ i = false) ∨ s = true) :
    Runtime.Create p i s = none ∧
    (p = true → i = false → ParsedOptions.Create p i = none) := by
  constructor
  · rcases h with ⟨hp, hi⟩ | hs
    · subst hp; subst hi; rfl
    · subst hs
      cases hP : ParsedOptions.Create p i with
      | none => simp [Runtime.Create, hP]
      | some v => simp [Runtime.Create, hP]
  · intro hp hi
    subst hp; subst hi; rfl

theorem runtimeCreate_failure_witness :
    Runtime.Create true false false = none ∧
    (true = true → false = false → ParsedOptions.Create true false = none) :=
  runtimeCreate_failure true false false (Or.inl ⟨rfl, rfl⟩)

/-- C8: installing a non-null resolution descriptor and reading it back
returns exactly the installed descriptor, and `HasResolutionMethod` is true
exactly when the stored slot is non-null. -/
theorem resolutionMethod_roundtrip (r : Runtime) (m : Nat) (hm : m ≠ 0) :
    (r.SetResolutionMethod m).GetResolutionMethod = .ok m ∧
    (r.SetResolutionMethod m).HasResolutionMethod = true ∧
    (∀ s : Runtime, s.HasResolutionMethod = true ↔ s.resolution_method_ ≠ 0) := by
  refine ⟨?_, ?_, ?_⟩
  · simp [Runtime.SetResolutionMethod, Runtime.GetResolutionMethod,
      Runtime.HasResolutionMethod, hm]
  · simp [Runtime.SetResolutionMethod, Runtime.HasResolutionMethod, hm]
  · intro s
    simp [Runtime.HasResolutionMethod]

theorem resolutionMethod_roundtrip_witness :
    (rt0.SetResolutionMethod 3).GetResolutionMethod = Except.ok 3 :=
  (resolutionMethod_roundtrip rt0 3 (by decide)).1

/-- C9: `GetHostPrefix` carries the undocumented debug-checked precondition
`!IsStarted()`: before the runtime starts it returns the stored host-prefix
string, and once `started_` is set a call is a `DCHECK` violation. -/
theorem getHostPrefix_dcheck (r : Runtime) :
    (r.IsStarted = false → r.GetHostPrefix = .ok r.host_prefix_) ∧
    (r.IsStarted = true → r.GetHostPrefix = .error .dcheck) := by
  constructor <;> intro h <;> simp [Runtime.GetHostPrefix, h]

theorem getHostPrefix_dcheck_witness :
    rt0.GetHostPrefix = Except.ok "" ∧
    rtStarted.GetHostPrefix = Except.error CheckKind.dcheck :=
  ⟨(getHostPrefix_dcheck rt0).1 rfl, (getHostPrefix_dcheck rtStarted).2 rfl⟩

/-- C10: the callee-save storage has exactly `kLastCalleeSaveType = 3`
slots; indexing is in bounds for each of `kSaveAll`, `kRefsOnly` and
`kRefsAndArgs`, while `kLastCalleeSaveType` itself indexes past the array —
its slot read is invalid, and every other enumerator's read is valid. -/
theorem calleeSaveStorage_bounds :
    numCalleeSaveSlots = 3 ∧
    CalleeSaveType.toIndex .kSaveAll < numCalleeSaveSlots ∧
    CalleeSaveType.toIndex .kRefsOnly < numCalleeSaveSlots ∧
    CalleeSaveType.toIndex .kRefsAndArgs < numCalleeSaveSlots ∧
    ¬ CalleeSaveType.toIndex .kLastCalleeSaveType < numCalleeSaveSlots ∧
    (∀ r : Runtime, r.calleeSaveSlot .kLastCalleeSaveType = none) ∧
    (∀ r : Runtime, ∀ t : CalleeSaveType, t ≠ .kLastCalleeSaveType →
      (r.calleeSaveSlot t).isSome = true) := by
  refine ⟨rfl, by decide, by decide, by decide, by decide, ?_, ?_⟩
  · intro r
    simp [Runtime.calleeSaveSlot, CalleeSaveType.toIndex, numCalleeSaveSlots]
  · intro r t ht
    cases t <;>
      simp_all [Runtime.calleeSaveSlot, CalleeSaveType.toIndex, numCalleeSaveSlots]

end ArtRuntime
